import Mathlib

/-!
# Verification of the cursor-templates core

Shallow embedding of the template-manager core of the `cursor-templates`
repository: the template validator (`scripts/test-templates.js`,
`validateTemplate`), the quality scorer (`scripts/quality-metrics.js`),
the rating aggregator, category filter and update command of the main CLI
(`cli/index.js`), and the template-store loader (`getTemplates`).

JavaScript values that the code inspects for truthiness are modelled as
`Option` types: a `none` field is an absent JSON key (JS `undefined`),
and string truthiness (`""` is falsy) is `truthyS`.  JS numbers appearing
here are either integers (scores, votes, star ratings), modelled as `ℤ`/`ℕ`,
or the stored running rating, modelled as `ℚ` with `Math.round` as
round-half-up on rationals.  Filesystem reads are modelled as `Except`
values (a read/parse either yields a value or an error message), and the
runtime exceptions that a function can raise internally (property access
on `undefined`) are modelled by computing in `Except String`.
-/

namespace CursorTemplates

/-! ## JS string primitives -/

/-- ASCII lower-casing of a string, the behaviour of JS
`String.prototype.toLowerCase` on the ASCII data that appears in
templates (tags, names, keywords). -/
def strToLower (s : String) : String :=
  ⟨s.data.map Char.toLower⟩

/-- `listStartsWith hay needle`: `needle` is a prefix of `hay`. -/
def listStartsWith : List Char → List Char → Bool
  | _, [] => true
  | [], _ :: _ => false
  | h :: hs, n :: ns => h = n && listStartsWith hs ns

/-- `listContainsSub hay needle`: `needle` occurs contiguously in `hay`. -/
def listContainsSub : List Char → List Char → Bool
  | [], needle => needle.isEmpty
  | h :: t, needle => listStartsWith (h :: t) needle || listContainsSub t needle

/-- JS `hay.includes(needle)`: substring containment. -/
def jsIncludes (hay needle : String) : Bool :=
  listContainsSub hay.data needle.data

/-- JS truthiness of an optional string value: an absent key and the
empty string are falsy. -/
def truthyS : Option String → Bool
  | none => false
  | some s => !s.isEmpty

/-- Split a character list at every `'.'` (the behaviour of
`"…".split('.')` / `splitOn "."` on the version strings at hand). -/
def splitOnDot : List Char → List (List Char)
  | [] => [[]]
  | c :: rest =>
      match splitOnDot rest with
      | [] => [[c]]
      | g :: gs => if c = '.' then [] :: g :: gs else (c :: g) :: gs

/-- The anchored regular expression `/^\d+\.\d+\.\d+$/` used for version
validation: exactly three dot-separated non-empty runs of digits. -/
def semverTriple (s : String) : Bool :=
  match splitOnDot s.data with
  | [a, b, c] =>
      !a.isEmpty && a.all Char.isDigit &&
      !b.isEmpty && b.all Char.isDigit &&
      !c.isEmpty && c.all Char.isDigit
  | _ => false

/-- The regular expression `/^[a-z0-9-]+$/` used for kebab-case name
checking in the scorer. -/
def kebabName (s : String) : Bool :=
  !s.isEmpty && s.all fun c => (('a' ≤ c && c ≤ 'z') || ('0' ≤ c && c ≤ '9') || c = '-')

/-- JS `Math.round`: round half toward positive infinity. -/
def jsRound (q : ℚ) : ℤ := ⌊q + 1 / 2⌋

/-- `Math.round(q * 10) / 10`: round to one decimal place, as done for the
stored running rating. -/
def round10 (q : ℚ) : ℚ := (jsRound (q * 10) : ℚ) / 10

/-! ## Data model

The `Template` record mirrors the JSON descriptor schema.  Every field can
be absent in a descriptor file, hence the `Option`s. -/

/-- One `{path, content}` entry of a template's `files` array. -/
structure FileEntry where
  path : Option String
  content : Option String
  deriving Repr, DecidableEq

/-- The `commands` object.  Only `install` and `dev` are ever read by the
validator/scorer; other keys are ignored by the analysed code. -/
structure Commands where
  install : Option String
  dev : Option String
  deriving Repr, DecidableEq

/-- The `rules` object.  `style` is a free-form JSON object of which the
analysed code only observes truthiness (any object is truthy), so it is
modelled as `Option Unit`. -/
structure Rules where
  context : Option String
  style : Option Unit
  restrictions : Option (List String)
  preferences : Option (List String)
  deriving Repr, DecidableEq

/-- A template descriptor as read from `template.json`. -/
structure Template where
  name : Option String
  description : Option String
  version : Option String
  tags : Option (List String)
  author : Option String
  rules : Option Rules
  files : Option (List FileEntry)
  commands : Option Commands
  deriving Repr, DecidableEq

/-- Truthiness of `template[field]` for the dynamically indexed
required-field loops (`['name','description','version','rules','files']`).
Strings use string truthiness; `rules`/`files` are objects/arrays, truthy
whenever present. -/
def fieldTruthy (t : Template) : String → Bool
  | "name" => truthyS t.name
  | "description" => truthyS t.description
  | "version" => truthyS t.version
  | "rules" => t.rules.isSome
  | "files" => t.files.isSome
  | _ => false

/-! ## Validator (`scripts/test-templates.js`, `validateTemplate`)

The validator pushes message strings into `errors`/`warnings` arrays; each
distinct message is modelled as a constructor carrying the data that
parameterises the message text. -/

/-- Fatal validation errors.  Message texts in the source:
`missingField f` ↦ "Missing required field: ${f}",
`invalidVersionFormat` ↦ "Invalid version format. Use semantic versioning (x.y.z)",
`invalidFileEntry e` ↦ "Invalid file entry: ${JSON.stringify(e)}",
`parseFailure m` ↦ "Failed to parse template: ${m}". -/
inductive VErr where
  | missingField (field : String)
  | invalidVersionFormat
  | invalidFileEntry (entry : FileEntry)
  | parseFailure (msg : String)
  deriving Repr, DecidableEq

/-- Advisory warnings, one constructor per message string in the source. -/
inductive VWarn where
  | missingRulesContext
  | missingRulesStyle
  | missingRulesRestrictions
  | missingRulesPreferences
  | noTags
  | cursorrulesTooShort
  | noFiles
  | noInstallCommand
  | noDevCommand
  | noCommands
  deriving Repr, DecidableEq

/-- Result record of `validateTemplate`. -/
structure ValidationResult where
  errors : List VErr
  warnings : List VWarn
  template : Option Template
  deriving Repr, DecidableEq

/-- The TypeError message raised by `file.content.length` when `content`
is `undefined` (reached when a files entry has `path === '.cursorrules'`
but no `content`). -/
def contentLengthTypeError : String :=
  "Cannot read properties of undefined (reading 'length')"

/-- The `for (const file of template.files)` loop of `validateTemplate`.
Per entry: a missing/empty `path` or `content` pushes an error; then, if
`path === '.cursorrules'`, the code reads `file.content.length`, which
throws a TypeError when `content` is absent — modelled as `Except.error`,
which aborts the loop (and, in `validateTemplate`, the whole validation). -/
def validateFiles : List FileEntry → Except String (List VErr × List VWarn)
  | [] => .ok ([], [])
  | f :: rest =>
      let errs : List VErr :=
        if !truthyS f.path || !truthyS f.content then [.invalidFileEntry f] else []
      if f.path = some ".cursorrules" then
        match f.content with
        | none => .error contentLengthTypeError
        | some c => do
            let (e, w) ← validateFiles rest
            let warns : List VWarn := if c.length < 100 then [.cursorrulesTooShort] else []
            .ok (errs ++ e, warns ++ w)
      else do
        let (e, w) ← validateFiles rest
        .ok (errs ++ e, w)

/-- Required-field errors: the loop over
`['name', 'description', 'version', 'rules']`. -/
def requiredFieldErrors (t : Template) : List VErr :=
  (["name", "description", "version", "rules"].filter fun f => !fieldTruthy t f).map .missingField

/-- Version-format error: pushed iff `version` is truthy and fails the
semver-triple pattern. -/
def versionFormatErrors (t : Template) : List VErr :=
  if truthyS t.version && !semverTriple (t.version.getD "") then [.invalidVersionFormat] else []

/-- Warnings from the `rules` sub-structure (only emitted when `rules` is
present; note that present-but-empty `restrictions`/`preferences` arrays
are truthy and produce no warning here). -/
def rulesWarnings (t : Template) : List VWarn :=
  match t.rules with
  | none => []
  | some r =>
      (if !truthyS r.context then [.missingRulesContext] else []) ++
      (if !r.style.isSome then [.missingRulesStyle] else []) ++
      (if !r.restrictions.isSome then [.missingRulesRestrictions] else []) ++
      (if !r.preferences.isSome then [.missingRulesPreferences] else [])

/-- Tags warning: `!template.tags || template.tags.length === 0`. -/
def tagsWarnings (t : Template) : List VWarn :=
  match t.tags with
  | none => [.noTags]
  | some tags => if tags.length = 0 then [.noTags] else []

/-- Commands warnings. -/
def commandsWarnings (t : Template) : List VWarn :=
  match t.commands with
  | none => [.noCommands]
  | some c =>
      (if !truthyS c.install then [.noInstallCommand] else []) ++
      (if !truthyS c.dev then [.noDevCommand] else [])

/-- `validateTemplate` from `scripts/test-templates.js`.  The argument is
the outcome of `fs.readJson(templatePath)`; any exception raised inside
the `try` block (the initial parse failure, or the TypeError from the
files loop) lands in the `catch`, which returns a single
`parseFailure` error and discards everything gathered so far. -/
def validateTemplate (read : Except String Template) : ValidationResult :=
  match read with
  | .error msg => ⟨[.parseFailure msg], [], none⟩
  | .ok t =>
      match validateFiles (t.files.getD []) with
      | .error msg => ⟨[.parseFailure msg], [], none⟩
      | .ok (fileErrs, fileWarns) =>
          let errors := requiredFieldErrors t ++ versionFormatErrors t ++ fileErrs
          let warnings :=
            rulesWarnings t ++ tagsWarnings t ++
            (match t.files with
             | some _ => fileWarns
             | none => [.noFiles]) ++
            commandsWarnings t
          ⟨errors, warnings, some t⟩

/-! ## Quality scorer (`scripts/quality-metrics.js`, class `QualityMetrics`) -/

/-- Per-dimension analysis record `{score, maxScore, issues, recommendations}`. -/
structure Analysis where
  score : ℤ
  maxScore : ℤ
  issues : List String
  recommendations : List String
  deriving Repr, DecidableEq

/-- The `metrics.analysis` object with its four dimensions. -/
structure Breakdown where
  completeness : Analysis
  documentation : Analysis
  bestPractices : Analysis
  usability : Analysis
  deriving Repr, DecidableEq

/-- The result record of `analyzeTemplate`.  In the `catch` branch the JS
object carries no `issues`/`recommendations`/`analysis` keys, hence the
`Option`s; `error` is present exactly in the `catch` branch. -/
structure Metrics where
  name : String
  score : ℤ
  grade : String
  issues : Option (List String)
  recommendations : Option (List String)
  analysis : Option Breakdown
  error : Option String
  deriving Repr, DecidableEq

/-- `analyzeCompleteness` (max 30): required fields, `.cursorrules`
presence among `files`, and `install`/`dev` commands. -/
def analyzeCompleteness (t : Template) : Analysis :=
  let requiredFields := ["name", "description", "version", "rules", "files"]
  let missingFields := requiredFields.filter fun f => !fieldTruthy t f
  let fieldScore : ℤ :=
    if missingFields.length = 0 then 15 else max 0 (15 - (missingFields.length : ℤ) * 3)
  let fieldIssues : List String :=
    if missingFields.length = 0 then []
    else ["Missing required fields: " ++ String.intercalate ", " missingFields]
  let filesPart : ℤ × List String :=
    match t.files with
    | some fs =>
        if fs.length > 0 then
          if fs.any (fun f => f.path = some ".cursorrules") then (10, [])
          else (5, ["Missing .cursorrules file"])
        else (0, ["No template files defined"])
    | none => (0, ["No template files defined"])
  let commandsPart : ℤ × List String × List String :=
    match t.commands with
    | some c =>
        let score : ℤ :=
          if truthyS c.install && truthyS c.dev then 5
          else if truthyS c.install || truthyS c.dev then 3
          else 0
        let recs :=
          (if !truthyS c.install then ["Add install command"] else []) ++
          (if !truthyS c.dev then ["Add dev command"] else [])
        (score, [], recs)
    | none => (0, ["No commands defined"], [])
  { score := fieldScore + filesPart.1 + commandsPart.1
    maxScore := 30
    issues := fieldIssues ++ filesPart.2 ++ commandsPart.2.1
    recommendations := commandsPart.2.2 }

/-- `analyzeDocumentation` (max 25).  Reading
`cursorRulesFile.content.length` throws a TypeError when the first files
entry with `path === '.cursorrules'` has no `content`. -/
def analyzeDocumentation (t : Template) : Except String Analysis :=
  let descPart : ℤ × List String × List String :=
    match t.description with
    | some d =>
        if !d.isEmpty then
          if d.length > 50 then (10, [], [])
          else if d.length > 20 then (7, [], [])
          else (4, [], ["Expand template description"])
        else (0, ["Missing description"], [])
    | none => (0, ["Missing description"], [])
  match (t.files.getD []).find? (fun f => f.path = some ".cursorrules") with
  | none =>
      .ok { score := descPart.1, maxScore := 25
            issues := descPart.2.1, recommendations := descPart.2.2 }
  | some f =>
      match f.content with
      | none => .error contentLengthTypeError
      | some content =>
          let lenPart : ℤ × List String × List String :=
            if content.length > 500 then (15, [], [])
            else if content.length > 200 then
              (10, [], ["Expand .cursorrules with more guidance"])
            else (5, [".cursorrules content is too brief"], [])
          let hasContext := jsIncludes content "context" || jsIncludes content "You are"
          let hasExamples := jsIncludes content "```" || jsIncludes content "Example"
          let hasBestPractices := jsIncludes content "Best Practices" || jsIncludes content "## "
          let sectionRecs :=
            (if !hasContext then ["Add context section to .cursorrules"] else []) ++
            (if !hasExamples then ["Add code examples to .cursorrules"] else []) ++
            (if !hasBestPractices then ["Add best practices section to .cursorrules"] else [])
          .ok { score := descPart.1 + lenPart.1, maxScore := 25
                issues := descPart.2.1 ++ lenPart.2.1
                recommendations := descPart.2.2 ++ lenPart.2.2 ++ sectionRecs }

/-- `analyzeBestPractices` (max 25): versioning, tags, `rules` structure. -/
def analyzeBestPractices (t : Template) : Analysis :=
  let versionPart : ℤ × List String :=
    if truthyS t.version && semverTriple (t.version.getD "") then (5, [])
    else (0, ["Invalid or missing semantic version"])
  let tagsPart : ℤ × List String × List String :=
    match t.tags with
    | some tags =>
        if tags.length > 0 then
          (5, [], if tags.length < 3 then ["Add more descriptive tags"] else [])
        else (0, ["No tags specified"], [])
    | none => (0, ["No tags specified"], [])
  let rulesPart : ℤ × List String × List String :=
    match t.rules with
    | some r =>
        let s1 : ℤ × List String :=
          if truthyS r.context then (4, []) else (0, ["Missing rules context"])
        let s2 : ℤ × List String :=
          if r.style.isSome then (4, []) else (0, ["Missing rules style"])
        let s3 : ℤ × List String :=
          if (r.restrictions.getD []).length > 0 && r.restrictions.isSome then (3, [])
          else (0, ["Add restrictions to rules"])
        let s4 : ℤ × List String :=
          if (r.preferences.getD []).length > 0 && r.preferences.isSome then (4, [])
          else (0, ["Add preferences to rules"])
        (s1.1 + s2.1 + s3.1 + s4.1, s1.2 ++ s2.2, s3.2 ++ s4.2)
    | none => (0, ["Missing rules object"], [])
  { score := versionPart.1 + tagsPart.1 + rulesPart.1
    maxScore := 25
    issues := versionPart.2 ++ tagsPart.2.1 ++ rulesPart.2.1
    recommendations := tagsPart.2.2 ++ rulesPart.2.2 }

/-- The fixed framework keyword list of `analyzeUsability`. -/
def frameworkKeywords : List String :=
  ["react", "vue", "angular", "svelte", "nextjs", "nuxt", "flutter", "django", "express"]

/-- Evaluation of
`frameworks.some(fw => tags.some(tag => tag.toLowerCase().includes(fw)) ||
template.name.toLowerCase().includes(fw))`: short-circuiting left to
right; reading `template.name.toLowerCase()` throws when `name` is
absent. -/
def hasFrameworkEval (tags : List String) (name : Option String) :
    List String → Except String Bool
  | [] => .ok false
  | fw :: rest =>
      if tags.any (fun tag => jsIncludes (strToLower tag) fw) then .ok true
      else
        match name with
        | none => .error "Cannot read properties of undefined (reading 'toLowerCase')"
        | some n =>
            if jsIncludes (strToLower n) fw then .ok true
            else hasFrameworkEval tags name rest

/-- `analyzeUsability` (max 20): kebab-case name, author presence, and the
framework-alignment block (evaluated only when both `tags` and `rules`
are present). -/
def analyzeUsability (t : Template) : Except String Analysis :=
  let namePart : ℤ × List String :=
    if truthyS t.name then
      if kebabName (t.name.getD "") then (5, [])
      else (3, ["Use kebab-case for template name"])
    else (0, [])
  let authorPart : ℤ × List String :=
    if truthyS t.author then (5, []) else (0, ["Add author information"])
  match t.tags, t.rules with
  | some tags, some _ => do
      let hasFramework ← hasFrameworkEval tags t.name frameworkKeywords
      let fwPart : ℤ × List String :=
        if hasFramework then (10, []) else (5, ["Specify target framework in tags"])
      .ok { score := namePart.1 + authorPart.1 + fwPart.1, maxScore := 20
            issues := []
            recommendations := namePart.2 ++ authorPart.2 ++ fwPart.2 }
  | _, _ =>
      .ok { score := namePart.1 + authorPart.1, maxScore := 20
            issues := []
            recommendations := namePart.2 ++ authorPart.2 }

/-- `calculateGrade`: the non-linear grade bands. -/
def calculateGrade (score : ℤ) : String :=
  if score ≥ 90 then "A+"
  else if score ≥ 85 then "A"
  else if score ≥ 80 then "A-"
  else if score ≥ 75 then "B+"
  else if score ≥ 70 then "B"
  else if score ≥ 65 then "B-"
  else if score ≥ 60 then "C+"
  else if score ≥ 55 then "C"
  else if score ≥ 50 then "C-"
  else if score ≥ 40 then "D"
  else "F"

/-- `analyzeTemplate(templatePath, templateName)`.  The first argument is
the outcome of `fs.readJson(templatePath)`; any exception inside the
`try` (read failure, or a TypeError in the documentation/usability
dimensions) reaches the `catch`, which returns
`{name, score: 0, grade: 'F', error}`. -/
def analyzeTemplate (templateName : String) (read : Except String Template) : Metrics :=
  let run : Except String Metrics := do
    let t ← read
    let c := analyzeCompleteness t
    let d ← analyzeDocumentation t
    let b := analyzeBestPractices t
    let u ← analyzeUsability t
    let score := c.score + d.score + b.score + u.score
    .ok { name := templateName
          score := score
          grade := calculateGrade score
          issues := some (c.issues ++ d.issues ++ b.issues ++ u.issues)
          recommendations :=
            some (c.recommendations ++ d.recommendations ++
                  b.recommendations ++ u.recommendations)
          analysis := some ⟨c, d, b, u⟩
          error := none }
  match run with
  | .ok m => m
  | .error e =>
      { name := templateName, score := 0, grade := "F"
        issues := none, recommendations := none, analysis := none, error := some e }

/-- The per-template loop of `analyzeAllTemplates`: one `analyzeTemplate`
result per directory whose `template.json` exists, in directory order.
Each list element is a directory name together with the outcome of
reading its descriptor. -/
def analyzeAll (entries : List (String × Except String Template)) : List Metrics :=
  entries.map fun e => analyzeTemplate e.1 e.2

/-! ## Rating aggregator (`cli/index.js`, `addRating` and the `rate`
command action)

The rating values flowing through this subsystem are JS numbers that can
be `NaN`: the `rate` command parses its CLI argument with
`parseInt(rating)`, which yields `NaN` on non-numeric input, and `NaN`
propagates through the arithmetic in `addRating`.  A possibly-NaN number
is modelled as an `Option` (`none` = `NaN`); every comparison against
`NaN` is false, and arithmetic on `NaN` yields `NaN`. -/

/-- JS addition on possibly-NaN numbers. -/
def jsAdd : Option ℚ → Option ℚ → Option ℚ
  | some a, some b => some (a + b)
  | _, _ => none

/-- JS multiplication on possibly-NaN numbers. -/
def jsMul : Option ℚ → Option ℚ → Option ℚ
  | some a, some b => some (a * b)
  | _, _ => none

/-- JS division on possibly-NaN numbers.  (Division by zero — JS
Infinity — is not modelled: the only divisor in this subsystem is the
incremented vote count, which is at least 1.) -/
def jsDiv : Option ℚ → Option ℚ → Option ℚ
  | some a, some b => some (a / b)
  | _, _ => none

/-- `Math.round(x * 10) / 10` on a possibly-NaN number:
`Math.round(NaN)` is `NaN`. -/
def round10Js : Option ℚ → Option ℚ
  | some q => some (round10 q)
  | none => none

/-- The coercion of a possibly-NaN integer (a `parseInt` result) to a
possibly-NaN number. -/
def jsOfInt : Option ℤ → Option ℚ
  | some r => some (r : ℚ)
  | none => none

/-- `x < k` for a possibly-NaN `x`: every comparison against `NaN` is
false. -/
def jsLt (x : Option ℤ) (k : ℤ) : Bool :=
  match x with
  | some r => r < k
  | none => false

/-- `x > k` for a possibly-NaN `x`. -/
def jsGt (x : Option ℤ) (k : ℤ) : Bool :=
  match x with
  | some r => k < r
  | none => false

/-- One entry of a rating record's `reviews` array.  `user` is always the
literal `'anonymous'` in the source; `rating` is the `parseInt` result
(possibly `NaN`); `date` is `new Date().toISOString()`, passed in here as
the ambient clock value. -/
structure Review where
  user : String
  rating : Option ℤ
  comment : String
  date : String
  deriving Repr, DecidableEq

/-- A per-template rating record `{rating, votes, reviews}`.  The stored
`rating` is a JS number and can be `NaN` (`none`) after a non-numeric
submission slips past the range guard; `JSON.stringify` serialises it as
`null`. -/
structure RatingRecord where
  rating : Option ℚ
  votes : ℕ
  reviews : List Review
  deriving Repr, DecidableEq

/-- The persisted ratings document (`community/ratings.json`): the
`templates` map is modelled as an association list in JS object key
order (updates keep position, new keys append). -/
structure RatingsDoc where
  templates : List (String × RatingRecord)
  featured : List String
  trending : List String
  deriving Repr, DecidableEq

/-- The document `getRatings` returns when no ratings file exists. -/
def emptyRatingsDoc : RatingsDoc := ⟨[], [], []⟩

/-- Association-list lookup, the read `ratings.templates[templateName]`. -/
def lookupA {α : Type} : List (String × α) → String → Option α
  | [], _ => none
  | (k', v') :: rest, k => if k' = k then some v' else lookupA rest k

/-- Association-list update with JS object semantics: an existing key is
overwritten in place, a new key is appended at the end. -/
def setA {α : Type} : List (String × α) → String → α → List (String × α)
  | [], k, v => [(k, v)]
  | (k', v') :: rest, k, v =>
      if k' = k then (k, v) :: rest else (k', v') :: setA rest k v

/-- The fresh record created when a template has no rating entry yet. -/
def freshRecord : RatingRecord := ⟨some 0, 0, []⟩

/-- The mutation `addRating` performs on one record:
`newTotal = rating * votes + newRating; votes += 1;
rating = Math.round((newTotal / votes) * 10) / 10`, and a review is
appended only when a (truthy) comment was supplied.  The submitted
`rating` is a `parseInt` result and may be `NaN`, which then propagates
to the stored `rating`. -/
def addRatingRec (rec : RatingRecord) (rating : Option ℤ) (comment : Option String)
    (date : String) : RatingRecord :=
  let newTotal : Option ℚ :=
    jsAdd (jsMul rec.rating (some (rec.votes : ℚ))) (jsOfInt rating)
  let votes := rec.votes + 1
  { rating := round10Js (jsDiv newTotal (some (votes : ℚ)))
    votes := votes
    reviews :=
      if truthyS comment then
        rec.reviews ++ [⟨"anonymous", rating, comment.getD "", date⟩]
      else rec.reviews }

/-- `addRating(templateName, rating, comment)` on the whole document. -/
def addRating (doc : RatingsDoc) (templateName : String) (rating : Option ℤ)
    (comment : Option String) (date : String) : RatingsDoc :=
  let rec0 := (lookupA doc.templates templateName).getD freshRecord
  { doc with
    templates := setA doc.templates templateName (addRatingRec rec0 rating comment date) }

/-- The `rate <template> <rating>` command action.  `ratingNum` is the
outcome of `parseInt(rating)` — `none` when the CLI argument is not
numeric (`NaN`).  The guard `ratingNum < 1 || ratingNum > 5` is false on
`NaN` (JS comparisons against `NaN` are false), so a non-numeric rating
is *not* rejected; then the template name is resolved against the loaded
templates, and `addRating` is invoked (and the document persisted).
Returns the resulting document and whether the submission was
accepted. -/
def rateCmd (doc : RatingsDoc) (templates : List Template) (templateName : String)
    (ratingNum : Option ℤ) (comment : Option String) (date : String) :
    RatingsDoc × Bool :=
  if jsLt ratingNum 1 || jsGt ratingNum 5 then (doc, false)
  else
    match templates.find? (fun t => t.name = some templateName) with
    | none => (doc, false)
    | some _ => (addRating doc templateName ratingNum comment date, true)

/-! ## Template store (`getTemplates`) -/

/-- One immediate subdirectory of the templates root: its name and the
state of its `template.json` — absent (`none`), present but failing to
parse (`some (.error msg)`), or parsed (`some (.ok t)`). -/
structure DirEntry where
  dir : String
  descriptor : Option (Except String Template)

/-- `getTemplates`: the loop over subdirectories.  A missing descriptor
file is skipped silently; a parse failure is caught, a warning printed,
and the entry skipped; a parsed template is pushed. -/
def getTemplates : List DirEntry → List Template
  | [] => []
  | e :: rest =>
      match e.descriptor with
      | some (.ok t) => t :: getTemplates rest
      | _ => getTemplates rest

/-! ## Category filter and search (`cli/index.js`) -/

/-- The fixed `categoryMap` of `filterByCategory`. -/
def categoryMap (category : String) : List String :=
  if category = "frontend" then ["react", "vue", "angular", "svelte"]
  else if category = "backend" then ["express", "fastapi", "django", "node", "python"]
  else if category = "mobile" then ["react-native", "flutter", "mobile", "ios", "android"]
  else if category = "desktop" then ["electron", "tauri", "desktop"]
  else if category = "fullstack" then ["nextjs", "t3", "remix", "nuxt", "fullstack", "ssr"]
  else []

/-- `filterByCategory(templates, category)`: keep the templates having at
least one tag whose lowercase form contains some seed keyword of the
category as a substring (`categoryMap[category.toLowerCase()] || []`). -/
def filterByCategory (templates : List Template) (category : String) : List Template :=
  let categoryTags := categoryMap (strToLower category)
  templates.filter fun t =>
    (t.tags.getD []).any fun tag =>
      categoryTags.any fun categoryTag => jsIncludes (strToLower tag) categoryTag

/-- The query predicate of the `search <query>` command action: the
lowercased query is a substring of the lowercased name, description, or
some lowercased tag.  (The source reads `template.name.toLowerCase()` and
`template.description.toLowerCase()` directly; absent fields are modelled
as the empty string here, and the search theorems are stated about
templates that carry both fields.) -/
def searchMatches (t : Template) (searchTerm : String) : Bool :=
  jsIncludes (strToLower (t.name.getD "")) searchTerm ||
  jsIncludes (strToLower (t.description.getD "")) searchTerm ||
  (t.tags.getD []).any fun tag => jsIncludes (strToLower tag) searchTerm

/-- The `search <query>` command action: optional category filter first,
then the query filter over name/description/tags. -/
def searchCmd (templates : List Template) (query : String)
    (category : Option String) : List Template :=
  let templates :=
    match category with
    | some c => filterByCategory templates c
    | none => templates
  let searchTerm := strToLower query
  templates.filter fun t => searchMatches t searchTerm

/-! ## Update command (`cli/index.js`, the `update` action and `isNewer`) -/

/-- The project metadata marker `.cursor-template.json`.  `updatedAt` is
absent until the first successful update rewrites the marker. -/
structure Marker where
  template : String
  version : Option String
  installedAt : Option String
  projectName : Option String
  updatedAt : Option String
  deriving Repr, DecidableEq

/-- Decimal value of a run of digit characters. -/
def digitsToNat (ds : List Char) : ℕ :=
  ds.foldl (fun n c => 10 * n + (c.toNat - '0'.toNat)) 0

/-- Parse a strict `major.minor.patch` triple of decimal numerals, the
shape of every version this repository stores; `semver.gt` throws on
values that are not valid semver (absent fields in particular), which the
`isNewer` fallback catches. -/
def parseSemver (s : Option String) : Option (ℕ × ℕ × ℕ) :=
  match s with
  | none => none
  | some s =>
      match splitOnDot s.data with
      | [a, b, c] =>
          if !a.isEmpty && a.all Char.isDigit && !b.isEmpty && b.all Char.isDigit &&
             !c.isEmpty && c.all Char.isDigit
          then some (digitsToNat a, digitsToNat b, digitsToNat c)
          else none
      | _ => none

/-- Semver precedence on core triples: major, then minor, then patch. -/
def semverLt (a b : ℕ × ℕ × ℕ) : Bool :=
  a.1 < b.1 || (a.1 = b.1 && (a.2.1 < b.2.1 || (a.2.1 = b.2.1 && a.2.2 < b.2.2)))

/-- `isNewer(newVersion, currentVersion)`: `semver.gt`, falling back to
plain inequality when `semver.gt` throws (unparseable input). -/
def isNewer (newVersion currentVersion : Option String) : Bool :=
  match parseSemver newVersion, parseSemver currentVersion with
  | some a, some b => semverLt b a
  | _, _ => newVersion ≠ currentVersion

/-- One filesystem write performed by the `update` action. -/
inductive FsOp where
  | copy (src dst : String)
  | write (path content : String)
  | writeMarker (m : Marker)
  deriving Repr, DecidableEq

/-- The observable outcome of the `update` action. -/
inductive UpdateOutcome where
  | noMetadata
  | templateMissing
  | checkReport (hasUpdate : Bool)
  | upToDate
  | cancelled
  | applied
  deriving Repr, DecidableEq

/-- The `update [--check] [--force]` command action, as the sequence of
filesystem writes it performs plus its outcome.  Inputs: the marker read
from `.cursor-template.json` (`none` when the file is absent), the loaded
templates, the two flags, the interactive confirmation answer, the set of
target paths that currently exist (deciding which files get a backup
copy), and the ambient clock (used both in backup names, `Date.now()`,
and in the marker's `updatedAt`, `toISOString()`; the clock is modelled
as constant for the duration of the command). -/
def updateCmd (metadata : Option Marker) (templates : List Template)
    (check force confirm : Bool) (existingPaths : List String)
    (now : String) : List FsOp × UpdateOutcome :=
  match metadata with
  | none => ([], .noMetadata)
  | some md =>
      match templates.find? (fun t => t.name = some md.template) with
      | none => ([], .templateMissing)
      | some currentTemplate =>
          let hasUpdate := isNewer currentTemplate.version md.version
          if check then ([], .checkReport hasUpdate)
          else if !hasUpdate && !force then ([], .upToDate)
          else if !confirm then ([], .cancelled)
          else
            let fileOps :=
              (currentTemplate.files.getD []).flatMap fun f =>
                let filePath := f.path.getD ""
                (if existingPaths.contains filePath then
                   [FsOp.copy filePath (filePath ++ ".backup." ++ now)]
                 else []) ++
                [FsOp.write filePath (f.content.getD "")]
            let newMarker : Marker :=
              { md with version := currentTemplate.version, updatedAt := some now }
            (fileOps ++ [FsOp.writeMarker newMarker], .applied)

/-! ## Claim-side definitions and concrete instances -/

/-- The projection of a store subdirectory to its parsed template, per the
spec: "one Template per subdirectory whose descriptor file exists and
parses". -/
def parsedOf (e : DirEntry) : Option Template :=
  match e.descriptor with
  | some (.ok t) => some t
  | _ => none

/-- A template whose `files` contains a `.cursorrules` entry with no
`content` and a further entry with no `path` (the failing input for the
files-entry error claims). -/
def tCursorNoContent : Template where
  name := some "a"
  description := some "d"
  version := some "1.0"
  tags := some ["x"]
  author := none
  rules := some ⟨some "c", some (), some ["r"], some ["p"]⟩
  files := some [⟨some "ok.txt", some "x"⟩, ⟨some ".cursorrules", none⟩, ⟨none, some "y"⟩]
  commands := none

/-! ## Theorems -/

/-- C10: for every template whose descriptor cannot be read or parsed,
`analyzeTemplate` does not throw: it returns a record with score 0, grade
"F" and the error message; and analysing a whole store always yields one
result per analysed entry. -/
theorem analyzeTemplate_error_gives_f_record :
    (∀ (name msg : String),
      analyzeTemplate name (.error msg) =
        { name := name, score := 0, grade := "F", issues := none,
          recommendations := none, analysis := none, error := some msg }) ∧
    (∀ entries : List (String × Except String Template),
      (analyzeAll entries).length = entries.length) := by
  refine ⟨fun name msg => rfl, fun entries => ?_⟩
  simp [analyzeAll]

/-- C5 (failing input): on a template whose `files` contains the entry
`{path: '.cursorrules'}` with no `content`, `validateTemplate` aborts
with a TypeError caught by the parse-failure catch: the result is a single
`parseFailure` error, and the per-entry error for the later entry
`{content: 'y'}` (missing `path`) is discarded rather than reported. -/
theorem validateTemplate_cursorrules_nocontent_discards_findings :
    validateTemplate (.ok tCursorNoContent) =
      ⟨[.parseFailure contentLengthTypeError], [], none⟩ ∧
    VErr.invalidFileEntry ⟨none, some "y"⟩ ∉
      (validateTemplate (.ok tCursorNoContent)).errors ∧
    ¬truthyS (FileEntry.path ⟨none, some "y"⟩) := by
  decide

/-- A store template named "rated-demo" for the rate-command theorems. -/
def tRated : Template where
  name := some "rated-demo"
  description := some "a rated template"
  version := some "1.0.0"
  tags := some ["x"]
  author := none
  rules := none
  files := none
  commands := none

/-- C6 (amended): the `rate` command rejects every submission whose
parsed rating is a *number* outside [1,5] and every submission whose
template name does not resolve, and in each rejected case it returns the
ratings document unchanged; but a submission whose rating argument is not
numeric parses to `NaN`, passes both range guards (JS comparisons against
`NaN` are false), and — when the template exists — is accepted:
`addRating` runs and mutates the persisted document. -/
theorem rateCmd_rejection_leaves_doc_unchanged :
    (∀ (doc : RatingsDoc) (templates : List Template) (name : String)
       (rn : Option ℤ) (comment : Option String) (date : String),
      ((∃ r, rn = some r ∧ (r < 1 ∨ 5 < r)) ∨
        templates.find? (fun t => t.name = some name) = none) →
      rateCmd doc templates name rn comment date = (doc, false)) ∧
    (∀ (doc : RatingsDoc) (templates : List Template) (name : String) (t : Template)
       (comment : Option String) (date : String),
      templates.find? (fun t => t.name = some name) = some t →
      rateCmd doc templates name none comment date =
        (addRating doc name none comment date, true)) := by
  constructor
  · intro doc templates name rn comment date h
    unfold rateCmd
    rcases h with ⟨r, hrn, hr⟩ | h
    · subst hrn
      have hb : (jsLt (some r) 1 || jsGt (some r) 5) = true := by
        rcases hr with h | h <;> simp [jsLt, jsGt, h]
      simp only [hb, if_true]
    · split
      · rfl
      · rw [h]
  · intro doc templates name t comment date hfind
    unfold rateCmd
    rw [if_neg (by simp [jsLt, jsGt]), hfind]

/-- Witness for C6: the numeric rating 6 against an empty store is
rejected without mutation, and a `NaN` rating against an existing
template is accepted. -/
theorem rateCmd_rejection_witness :
    (((∃ r, (some (6 : ℤ)) = some r ∧ (r < 1 ∨ 5 < r)) ∨
        ([] : List Template).find? (fun t => t.name = some "x") = none) ∧
      [tRated].find? (fun t => t.name = some "rated-demo") = some tRated) ∧
    rateCmd emptyRatingsDoc [] "x" (some 6) none "" = (emptyRatingsDoc, false) ∧
    rateCmd emptyRatingsDoc [tRated] "rated-demo" none none "" =
      (addRating emptyRatingsDoc "rated-demo" none none "", true) :=
  ⟨⟨Or.inl ⟨6, rfl, Or.inr (by decide)⟩, by decide⟩,
   rateCmd_rejection_leaves_doc_unchanged.1 _ _ _ _ _ _
     (Or.inl ⟨6, rfl, Or.inr (by decide)⟩),
   rateCmd_rejection_leaves_doc_unchanged.2 _ _ _ tRated _ _ (by decide)⟩

/-- C6 (counterexample to the claim as stated): the submission
`rate rated-demo abc` has a rating that is not an integer in [1,5]
(`parseInt('abc')` is `NaN`), yet the command accepts it and mutates the
persisted ratings document: a record for "rated-demo" is created with
`votes = 1` and a `NaN` stored rating (serialised as `null`). -/
theorem rateCmd_nan_accepted_counterexample :
    (rateCmd emptyRatingsDoc [tRated] "rated-demo" none none "").2 = true ∧
    (rateCmd emptyRatingsDoc [tRated] "rated-demo" none none "").1 ≠ emptyRatingsDoc ∧
    lookupA (rateCmd emptyRatingsDoc [tRated] "rated-demo" none none "").1.templates
      "rated-demo" = some ⟨none, 1, []⟩ := by
  decide

/-- C7: `getTemplates` returns exactly the parsed templates, one per
subdirectory whose descriptor exists and parses, and removing/inserting a
malformed entry never changes what the sibling subdirectories
contribute. -/
theorem getTemplates_skips_malformed :
    (∀ fs : List DirEntry, getTemplates fs = fs.filterMap parsedOf) ∧
    (∀ (pre post : List DirEntry) (e : DirEntry) (msg : String),
      e.descriptor = some (.error msg) →
      getTemplates (pre ++ e :: post) = getTemplates (pre ++ post)) := by
  have key : ∀ fs : List DirEntry, getTemplates fs = fs.filterMap parsedOf := by
    intro fs
    induction fs with
    | nil => rfl
    | cons e rest ih =>
        rcases e with ⟨d, desc⟩
        rcases desc with _ | res
        · simpa [getTemplates, parsedOf] using ih
        · rcases res with msg | t
          · simpa [getTemplates, parsedOf] using ih
          · simpa [getTemplates, parsedOf] using ih
  refine ⟨key, fun pre post e msg h => ?_⟩
  rw [key, key, List.filterMap_append, List.filterMap_append, List.filterMap_cons]
  simp [parsedOf, h]

/-- Witness for C7: a corrupt entry between two healthy ones contributes
nothing and does not disturb its siblings. -/
theorem getTemplates_skips_malformed_witness :
    (DirEntry.descriptor ⟨"bad", some (.error "Unexpected token")⟩ =
      some (.error "Unexpected token")) ∧
    getTemplates
      [⟨"a", some (.ok tCursorNoContent)⟩,
       ⟨"bad", some (.error "Unexpected token")⟩,
       ⟨"c", some (.ok tCursorNoContent)⟩] =
    getTemplates
      [⟨"a", some (.ok tCursorNoContent)⟩, ⟨"c", some (.ok tCursorNoContent)⟩] :=
  ⟨rfl,
   getTemplates_skips_malformed.2
     [⟨"a", some (.ok tCursorNoContent)⟩] [⟨"c", some (.ok tCursorNoContent)⟩]
     ⟨"bad", some (.error "Unexpected token")⟩ "Unexpected token" rfl⟩

/-- When no files entry has `path = '.cursorrules'` with absent
`content`, the files loop completes, and every error it produces is a
per-entry `invalidFileEntry`. -/
theorem validateFiles_ok_of_no_crash :
    ∀ fs : List FileEntry,
      (∀ f ∈ fs, ¬(f.path = some ".cursorrules" ∧ f.content = none)) →
      ∃ e w, validateFiles fs = .ok (e, w) ∧ ∀ x ∈ e, ∃ f, x = .invalidFileEntry f := by
  intro fs
  induction fs with
  | nil => exact fun _ => ⟨[], [], rfl, by simp⟩
  | cons f rest ih =>
      intro h
      obtain ⟨e, w, hok, hall⟩ := ih fun g hg => h g (List.mem_cons_of_mem f hg)
      by_cases hp : f.path = some ".cursorrules"
      · rcases hc : f.content with _ | c
        · exact absurd ⟨hp, hc⟩ (h f (List.mem_cons_self f rest))
        · refine ⟨(if !truthyS f.path || !truthyS f.content then [.invalidFileEntry f] else []) ++ e,
            (if c.length < 100 then [.cursorrulesTooShort] else []) ++ w, ?_, ?_⟩
          · simp only [validateFiles, hp, if_true, hc]
            rw [hok]
            rfl
          · intro x hx
            rcases List.mem_append.mp hx with hx | hx
            · refine ⟨f, ?_⟩
              by_cases hcond : (!truthyS f.path || !truthyS f.content) = true
              · simpa [hcond] using hx
              · simp [hcond] at hx
            · exact hall x hx
      · refine ⟨(if !truthyS f.path || !truthyS f.content then [.invalidFileEntry f] else []) ++ e,
          w, ?_, ?_⟩
        · simp only [validateFiles, hp, if_false]
          rw [hok]
          rfl
        · intro x hx
          rcases List.mem_append.mp hx with hx | hx
          · refine ⟨f, ?_⟩
            by_cases hcond : (!truthyS f.path || !truthyS f.content) = true
            · simpa [hcond] using hx
            · simp [hcond] at hx
          · exact hall x hx

/-- C2 (amended): provided no files entry has path `.cursorrules` with
missing content (in which case validation aborts in the TypeError catch),
`validateTemplate` reports a version-format error iff the non-empty
version string fails the anchored `\d+\.\d+\.\d+` pattern; "1.0" and
"1.0.0-beta" fail the pattern, "1.0.0" matches it. -/
theorem validate_version_error_iff :
    (∀ (t : Template) (v : String), t.version = some v → v ≠ "" →
      (∀ f ∈ t.files.getD [], ¬(f.path = some ".cursorrules" ∧ f.content = none)) →
      (VErr.invalidVersionFormat ∈ (validateTemplate (.ok t)).errors ↔
        semverTriple v = false)) ∧
    semverTriple "1.0" = false ∧ semverTriple "1.0.0-beta" = false ∧
    semverTriple "1.0.0" = true := by
  refine ⟨?_, by decide, by decide, by decide⟩
  intro t v hv hne hnc
  obtain ⟨e, w, hok, hall⟩ := validateFiles_ok_of_no_crash (t.files.getD []) hnc
  have herrs : (validateTemplate (.ok t)).errors =
      requiredFieldErrors t ++ versionFormatErrors t ++ e := by
    simp only [validateTemplate]
    rw [hok]
  have hreq : VErr.invalidVersionFormat ∉ requiredFieldErrors t := by
    simp [requiredFieldErrors]
  have he : VErr.invalidVersionFormat ∉ e := by
    intro hx
    obtain ⟨f, hf⟩ := hall _ hx
    cases hf
  have htruthy : truthyS t.version = true := by
    rw [hv]
    simp only [truthyS, Bool.not_eq_true']
    cases hE : v.isEmpty with
    | false => rfl
    | true => exact absurd ((String.isEmpty_iff v).mp hE) hne
  have hver : (VErr.invalidVersionFormat ∈ versionFormatErrors t) ↔
      semverTriple v = false := by
    unfold versionFormatErrors
    rw [htruthy, hv]
    cases hs : semverTriple v <;> simp [hs]
  rw [herrs]
  simp only [List.mem_append]
  constructor
  · rintro ((h | h) | h)
    · exact absurd h hreq
    · exact hver.mp h
    · exact absurd h he
  · intro h
    exact Or.inl (Or.inr (hver.mpr h))

/-- A template with an invalid version ("1.0") and a `.cursorrules` files
entry carrying no `content`. -/
def tVersionDiscarded : Template where
  name := some "b"
  description := some "d"
  version := some "1.0"
  tags := some ["x"]
  author := none
  rules := some ⟨some "c", some (), some ["r"], some ["p"]⟩
  files := some [⟨some ".cursorrules", none⟩]
  commands := none

/-- C2 (counterexample to the claim as stated): `tVersionDiscarded` has
the version field "1.0", which fails the pattern, yet `validateTemplate`
reports no version-format error — the files loop's TypeError sends the
whole validation into the parse-failure catch first. -/
theorem validate_version_error_iff_counterexample :
    tVersionDiscarded.version = some "1.0" ∧ semverTriple "1.0" = false ∧
    VErr.invalidVersionFormat ∉ (validateTemplate (.ok tVersionDiscarded)).errors := by
  decide

/-- A well-formed template except for its invalid version "1.0". -/
def tVersionPlain : Template where
  name := some "b"
  description := some "d"
  version := some "1.0"
  tags := some ["x"]
  author := none
  rules := some ⟨some "c", some (), some ["r"], some ["p"]⟩
  files := some [⟨some "a.txt", some "hello"⟩]
  commands := none

/-- Witness for C2 at `tVersionPlain`: the hypotheses hold and the
version-format error is reported for "1.0". -/
theorem validate_version_error_iff_witness :
    (tVersionPlain.version = some "1.0" ∧ "1.0" ≠ "" ∧
      (∀ f ∈ tVersionPlain.files.getD [],
        ¬(f.path = some ".cursorrules" ∧ f.content = none))) ∧
    (VErr.invalidVersionFormat ∈ (validateTemplate (.ok tVersionPlain)).errors ↔
      semverTriple "1.0" = false) :=
  ⟨⟨rfl, by decide, by decide⟩,
   validate_version_error_iff.1 tVersionPlain "1.0" rfl (by decide) (by decide)⟩

/-- The Completeness dimension scores within `[0, 30]`. -/
theorem analyzeCompleteness_score_bounds (t : Template) :
    0 ≤ (analyzeCompleteness t).score ∧ (analyzeCompleteness t).score ≤ 30 := by
  have hm : (["name", "description", "version", "rules", "files"].filter
      fun f => !fieldTruthy t f).length ≤ 5 :=
    List.length_filter_le _ _
  unfold analyzeCompleteness
  cases hf : t.files <;> cases hc : t.commands <;> dsimp only <;>
    split_ifs <;> simp_all <;> omega

/-- The Documentation dimension, when it completes, scores within
`[0, 25]`. -/
theorem analyzeDocumentation_score_bounds (t : Template) (a : Analysis)
    (h : analyzeDocumentation t = .ok a) : 0 ≤ a.score ∧ a.score ≤ 25 := by
  unfold analyzeDocumentation at h
  rcases hd : t.description with _ | d <;> rw [hd] at h <;>
    rcases hfind : List.find? (fun f => decide (f.path = some ".cursorrules"))
      (t.files.getD []) with _ | f <;> rw [hfind] at h <;> dsimp only at h
  · injection h with h2
    subst h2
    exact ⟨by dsimp only; omega, by dsimp only; omega⟩
  · rcases hc : f.content with _ | c <;> rw [hc] at h <;> dsimp only at h
    · exact absurd h (by simp)
    · split_ifs at h <;> injection h with h2 <;> subst h2 <;>
        exact ⟨by dsimp only; omega, by dsimp only; omega⟩
  · split_ifs at h <;> injection h with h2 <;> subst h2 <;>
      exact ⟨by dsimp only; omega, by dsimp only; omega⟩
  · rcases hc : f.content with _ | c <;> rw [hc] at h <;> dsimp only at h
    · exact absurd h (by simp)
    · split_ifs at h <;> injection h with h2 <;> subst h2 <;>
        exact ⟨by dsimp only; omega, by dsimp only; omega⟩

/-- The Best Practices dimension scores within `[0, 25]`. -/
theorem analyzeBestPractices_score_bounds (t : Template) :
    0 ≤ (analyzeBestPractices t).score ∧ (analyzeBestPractices t).score ≤ 25 := by
  unfold analyzeBestPractices
  cases ht : t.tags <;> cases hr : t.rules <;> dsimp only <;>
    split_ifs <;> simp_all

/-- The Usability dimension, when it completes, scores within `[0, 20]`. -/
theorem analyzeUsability_score_bounds (t : Template) (a : Analysis)
    (h : analyzeUsability t = .ok a) : 0 ≤ a.score ∧ a.score ≤ 20 := by
  unfold analyzeUsability at h
  rcases ht : t.tags with _ | tags <;> rw [ht] at h <;>
    rcases hr : t.rules with _ | r <;> rw [hr] at h <;> dsimp only at h
  · split_ifs at h <;> injection h with h2 <;> subst h2 <;>
      exact ⟨by dsimp only; omega, by dsimp only; omega⟩
  · split_ifs at h <;> injection h with h2 <;> subst h2 <;>
      exact ⟨by dsimp only; omega, by dsimp only; omega⟩
  · split_ifs at h <;> injection h with h2 <;> subst h2 <;>
      exact ⟨by dsimp only; omega, by dsimp only; omega⟩
  · rcases hfw : hasFrameworkEval tags t.name frameworkKeywords with msg | b <;>
      simp only [hfw, bind, Except.bind] at h
    · exact absurd h (by simp)
    · split_ifs at h <;> injection h with h2 <;> subst h2 <;>
        exact ⟨by dsimp only; omega, by dsimp only; omega⟩

/-- The grade bands of `calculateGrade`. -/
theorem calculateGrade_bands (s : ℤ) :
    (90 ≤ s → calculateGrade s = "A+") ∧
    (85 ≤ s ∧ s < 90 → calculateGrade s = "A") ∧
    (80 ≤ s ∧ s < 85 → calculateGrade s = "A-") ∧
    (75 ≤ s ∧ s < 80 → calculateGrade s = "B+") ∧
    (70 ≤ s ∧ s < 75 → calculateGrade s = "B") ∧
    (65 ≤ s ∧ s < 70 → calculateGrade s = "B-") ∧
    (60 ≤ s ∧ s < 65 → calculateGrade s = "C+") ∧
    (55 ≤ s ∧ s < 60 → calculateGrade s = "C") ∧
    (50 ≤ s ∧ s < 55 → calculateGrade s = "C-") ∧
    (40 ≤ s ∧ s < 50 → calculateGrade s = "D") ∧
    (s < 40 → calculateGrade s = "F") := by
  refine ⟨fun h => ?_, fun h => ?_, fun h => ?_, fun h => ?_, fun h => ?_, fun h => ?_,
    fun h => ?_, fun h => ?_, fun h => ?_, fun h => ?_, fun h => ?_⟩ <;>
    · unfold calculateGrade
      repeat rw [if_neg (by omega)]
      try rw [if_pos (by omega)]

/-- C3: every quality score is an integer in `[0, 100]`, the reported
grade is `calculateGrade` of the total score, and `calculateGrade` is the
band table of the spec (in particular score 40 gives "D" and score 39
gives "F"). -/
theorem quality_score_range_and_grade :
    ∀ (name : String) (read : Except String Template),
      0 ≤ (analyzeTemplate name read).score ∧
      (analyzeTemplate name read).score ≤ 100 ∧
      (analyzeTemplate name read).grade =
        calculateGrade (analyzeTemplate name read).score ∧
      (∀ s : ℤ,
        (90 ≤ s → calculateGrade s = "A+") ∧
        (85 ≤ s ∧ s < 90 → calculateGrade s = "A") ∧
        (80 ≤ s ∧ s < 85 → calculateGrade s = "A-") ∧
        (75 ≤ s ∧ s < 80 → calculateGrade s = "B+") ∧
        (70 ≤ s ∧ s < 75 → calculateGrade s = "B") ∧
        (65 ≤ s ∧ s < 70 → calculateGrade s = "B-") ∧
        (60 ≤ s ∧ s < 65 → calculateGrade s = "C+") ∧
        (55 ≤ s ∧ s < 60 → calculateGrade s = "C") ∧
        (50 ≤ s ∧ s < 55 → calculateGrade s = "C-") ∧
        (40 ≤ s ∧ s < 50 → calculateGrade s = "D") ∧
        (s < 40 → calculateGrade s = "F")) ∧
      calculateGrade 40 = "D" ∧ calculateGrade 39 = "F" := by
  intro name read
  have hmain : 0 ≤ (analyzeTemplate name read).score ∧
      (analyzeTemplate name read).score ≤ 100 ∧
      (analyzeTemplate name read).grade =
        calculateGrade (analyzeTemplate name read).score := by
    rcases read with msg | t
    · have he : analyzeTemplate name (.error msg) =
          { name := name, score := 0, grade := "F", issues := none,
            recommendations := none, analysis := none, error := some msg } := rfl
      rw [he]
      exact ⟨by norm_num, by norm_num, by rfl⟩
    · have hc := analyzeCompleteness_score_bounds t
      have hb := analyzeBestPractices_score_bounds t
      rcases hd : analyzeDocumentation t with msgd | ad
      · have he : analyzeTemplate name (.ok t) =
            { name := name, score := 0, grade := "F", issues := none,
              recommendations := none, analysis := none, error := some msgd } := by
          simp [analyzeTemplate, bind, Except.bind, hd]
        rw [he]
        exact ⟨by norm_num, by norm_num, by rfl⟩
      · rcases hu : analyzeUsability t with msgu | au
        · have he : analyzeTemplate name (.ok t) =
              { name := name, score := 0, grade := "F", issues := none,
                recommendations := none, analysis := none, error := some msgu } := by
            simp [analyzeTemplate, bind, Except.bind, hd, hu]
          rw [he]
          exact ⟨by norm_num, by norm_num, by rfl⟩
        · have hdb := analyzeDocumentation_score_bounds t ad hd
          have hub := analyzeUsability_score_bounds t au hu
          have hsc : (analyzeTemplate name (.ok t)).score =
              (analyzeCompleteness t).score + ad.score +
              (analyzeBestPractices t).score + au.score := by
            simp [analyzeTemplate, bind, Except.bind, hd, hu]
          have hgr : (analyzeTemplate name (.ok t)).grade =
              calculateGrade ((analyzeTemplate name (.ok t)).score) := by
            simp [analyzeTemplate, bind, Except.bind, hd, hu]
          exact ⟨by rw [hsc]; omega, by rw [hsc]; omega, hgr⟩
  exact ⟨hmain.1, hmain.2.1, hmain.2.2, calculateGrade_bands, by decide, by decide⟩

/-- Number of missing fields among `{name, description, version, rules,
files}` (the claim's `m`). -/
def missingRequiredCount (t : Template) : ℕ :=
  (["name", "description", "version", "rules", "files"].filter
    fun f => !fieldTruthy t f).length

/-- Files points of the Completeness dimension, per the claim: when
`files` is present and non-empty, 10 if some entry has path
`.cursorrules` else 5; otherwise 0. -/
def completenessFilesPoints (t : Template) : ℤ :=
  match t.files with
  | some fs =>
      if fs ≠ [] then
        if fs.any (fun f => f.path = some ".cursorrules") then 10 else 5
      else 0
  | none => 0

/-- Commands points of the Completeness dimension, per the claim: 5 when
both `install` and `dev` are present, 3 when exactly one is, else 0. -/
def completenessCommandsPoints (t : Template) : ℤ :=
  match t.commands with
  | some c =>
      if truthyS c.install && truthyS c.dev then 5
      else if truthyS c.install || truthyS c.dev then 3
      else 0
  | none => 0

/-- The claim's Completeness score formula:
`max(0, 15 − 3·m)` plus files points plus commands points. -/
def completenessScoreSpec (t : Template) : ℤ :=
  max 0 (15 - 3 * (missingRequiredCount t : ℤ)) +
    completenessFilesPoints t + completenessCommandsPoints t

/-- The Completeness recommendations, per the amended claim: one per
absent command, but only when the `commands` object itself is present. -/
def completenessRecsSpec (t : Template) : List String :=
  match t.commands with
  | some c =>
      (if !truthyS c.install then ["Add install command"] else []) ++
      (if !truthyS c.dev then ["Add dev command"] else [])
  | none => []

/-- The required-fields issue text never collides with the
`.cursorrules` issue text, whatever the list of missing fields. -/
theorem ne_cursorMsg_fieldsMsg (s : String) :
    "Missing .cursorrules file" ≠ "Missing required fields: " ++ s := by
  intro h
  have hl := congrArg String.length h
  rw [String.length_append] at hl
  have h25a : ("Missing .cursorrules file").length = 25 := by decide
  have h25b : ("Missing required fields: ").length = 25 := by decide
  have h0 : s.length = 0 := by omega
  have hs : s = "" := by
    cases s with
    | mk data =>
        cases data with
        | nil => rfl
        | cons c cs => simp [String.length] at h0
  subst hs
  exact absurd h (by decide)

/-- The required-fields issue text never collides with the no-files issue
text. -/
theorem ne_noFilesMsg_fieldsMsg (s : String) :
    "No template files defined" ≠ "Missing required fields: " ++ s := by
  intro h
  have hl := congrArg String.length h
  rw [String.length_append] at hl
  have h25a : ("No template files defined").length = 25 := by decide
  have h25b : ("Missing required fields: ").length = 25 := by decide
  have h0 : s.length = 0 := by omega
  have hs : s = "" := by
    cases s with
    | mk data =>
        cases data with
        | nil => rfl
        | cons c cs => simp [String.length] at h0
  subst hs
  exact absurd h (by decide)

/-- The required-fields issue text never collides with the no-commands
issue text. -/
theorem ne_noCommandsMsg_fieldsMsg (s : String) :
    "No commands defined" ≠ "Missing required fields: " ++ s := by
  intro h
  have hl := congrArg String.length h
  rw [String.length_append] at hl
  have h19 : ("No commands defined").length = 19 := by decide
  have h25 : ("Missing required fields: ").length = 25 := by decide
  omega

theorem ne_cursorMsg_noFilesMsg :
    "Missing .cursorrules file" ≠ "No template files defined" := by decide

theorem ne_cursorMsg_noCommandsMsg :
    "Missing .cursorrules file" ≠ "No commands defined" := by decide

theorem ne_noFilesMsg_cursorMsg :
    "No template files defined" ≠ "Missing .cursorrules file" := by decide

theorem ne_noFilesMsg_noCommandsMsg :
    "No template files defined" ≠ "No commands defined" := by decide

theorem ne_noCommandsMsg_cursorMsg :
    "No commands defined" ≠ "Missing .cursorrules file" := by decide

theorem ne_noCommandsMsg_noFilesMsg :
    "No commands defined" ≠ "No template files defined" := by decide

set_option maxHeartbeats 1600000 in
/-- C4 (amended): the Completeness score is `max(0, 15 - 3*m)` plus the
files points plus the commands points; its issues flag the 5-point files
case, the absent/empty files case and an absent `commands` object; command
recommendations are emitted only when the `commands` object is present —
when `commands` is absent entirely, the issue "No commands defined" is
recorded and no recommendation is emitted. -/
theorem completeness_dimension_formula (t : Template) :
    (analyzeCompleteness t).score = completenessScoreSpec t ∧
    (analyzeCompleteness t).recommendations = completenessRecsSpec t ∧
    ("Missing .cursorrules file" ∈ (analyzeCompleteness t).issues ↔
      (∃ fs, t.files = some fs ∧ fs ≠ [] ∧
        fs.any (fun f => f.path = some ".cursorrules") = false)) ∧
    ("No template files defined" ∈ (analyzeCompleteness t).issues ↔
      (t.files = none ∨ t.files = some [])) ∧
    ("No commands defined" ∈ (analyzeCompleteness t).issues ↔ t.commands = none) := by
  have hfield : ∀ n : ℕ,
      (if n = 0 then (15 : ℤ) else max 0 (15 - (n : ℤ) * 3)) =
        max 0 (15 - 3 * (n : ℤ)) := by
    intro n
    split_ifs with h
    · simp [h]
    · rw [mul_comm]
  refine ⟨?_, ?_, ?_, ?_, ?_⟩
  · unfold analyzeCompleteness completenessScoreSpec completenessFilesPoints
      completenessCommandsPoints missingRequiredCount
    rcases hf : t.files with _ | (_ | ⟨f0, fs⟩) <;> rcases hc : t.commands with _ | c <;>
      simp only [hf, hc] <;> (try dsimp only) <;> rw [hfield] <;>
      simp only [apply_ite (@Prod.fst ℤ (List String))] <;> simp <;> try omega
  · unfold analyzeCompleteness completenessRecsSpec
    rcases hc : t.commands with _ | c <;> simp only [hc] <;> (try dsimp only) <;> rfl
  · unfold analyzeCompleteness
    rcases hf : t.files with _ | (_ | ⟨f0, fs⟩) <;> rcases hc : t.commands with _ | c <;>
      simp only [hf, hc] <;> (try dsimp only) <;> split_ifs <;>
      simp_all [ne_cursorMsg_fieldsMsg, ne_cursorMsg_noFilesMsg,
        ne_cursorMsg_noCommandsMsg] <;>
      tauto
  · unfold analyzeCompleteness
    rcases hf : t.files with _ | (_ | ⟨f0, fs⟩) <;> rcases hc : t.commands with _ | c <;>
      simp only [hf, hc] <;> (try dsimp only) <;> split_ifs <;>
      simp_all [ne_noFilesMsg_fieldsMsg, ne_noFilesMsg_cursorMsg,
        ne_noFilesMsg_noCommandsMsg] <;>
      tauto
  · unfold analyzeCompleteness
    rcases hf : t.files with _ | (_ | ⟨f0, fs⟩) <;> rcases hc : t.commands with _ | c <;>
      simp only [hf, hc] <;> (try dsimp only) <;> split_ifs <;>
      simp_all [ne_noCommandsMsg_fieldsMsg, ne_noCommandsMsg_cursorMsg,
        ne_noCommandsMsg_noFilesMsg] <;>
      tauto

/-- A complete template except that `commands` is absent entirely. -/
def tNoCommands : Template where
  name := some "a"
  description := some "d"
  version := some "1.0.0"
  tags := some ["x"]
  author := none
  rules := some ⟨some "c", some (), some ["r"], some ["p"]⟩
  files := some [⟨some ".cursorrules", some "content"⟩]
  commands := none

/-- C4 (counterexample to the claim as stated): `tNoCommands` has both
`commands.install` and `commands.dev` absent, yet `analyzeCompleteness`
emits no recommendation at all (the claim demands one per absent
command); the points, however, are 15 + 10 + 0 = 25 as claimed. -/
theorem completeness_dimension_counterexample :
    tNoCommands.commands = none ∧
    (analyzeCompleteness tNoCommands).score = 25 ∧
    (analyzeCompleteness tNoCommands).recommendations = [] ∧
    "Add install command" ∉ (analyzeCompleteness tNoCommands).recommendations := by
  decide

/-! ## C1: rating aggregation -/

/-- Submit a sequence of `(rating, comment)` pairs for one template, in
order, starting from a given ratings document.  The ratings here are the
integers of the claim (a numeric `parseInt` result). -/
def submitAll (doc : RatingsDoc) (name : String) (subs : List (ℤ × Option String))
    (date : String) : RatingsDoc :=
  subs.foldl (fun d s => addRating d name (some s.1) s.2 date) doc

/-- The incrementally recomputed, per-step-rounded running mean: after
each submission the stored value is `round10((stored·k + r) / (k+1))`.
This is the spec's §4.5 recurrence (as opposed to `round10` of the final
arithmetic mean). -/
def runningMeanFold (ratings : List ℤ) : ℚ :=
  (ratings.foldl
    (fun (acc : ℚ × ℕ) (r : ℤ) =>
      (round10 ((acc.1 * (acc.2 : ℚ) + (r : ℚ)) / ((acc.2 : ℚ) + 1)), acc.2 + 1))
    (0, 0)).1

/-- The reviews produced by a submission sequence: one entry per truthy
comment, in submission order. -/
def reviewsSpec (subs : List (ℤ × Option String)) (date : String) : List Review :=
  subs.filterMap fun s =>
    if truthyS s.2 then some ⟨"anonymous", some s.1, s.2.getD "", date⟩ else none

theorem lookupA_setA_self {α : Type} (l : List (String × α)) (k : String) (v : α) :
    lookupA (setA l k v) k = some v := by
  induction l with
  | nil => simp [setA, lookupA]
  | cons p rest ih =>
      by_cases h : p.1 = k
      · simp [setA, lookupA, h]
      · simp [setA, lookupA, h, ih]

theorem addRating_lookup (doc : RatingsDoc) (name : String) (r : Option ℤ)
    (c : Option String) (d : String) :
    lookupA (addRating doc name r c d).templates name =
      some (addRatingRec ((lookupA doc.templates name).getD freshRecord) r c d) := by
  unfold addRating
  exact lookupA_setA_self _ _ _

/-- One fold step per submission over a per-template record holding a
numeric (non-NaN) stored rating. -/
theorem foldRec_spec (date : String) :
    ∀ (subs : List (ℤ × Option String)) (q : ℚ) (v : ℕ) (rvs : List Review),
      subs.foldl (fun r s => addRatingRec r (some s.1) s.2 date) ⟨some q, v, rvs⟩ =
      ⟨some ((subs.map Prod.fst).foldl
          (fun (acc : ℚ × ℕ) (r : ℤ) =>
            (round10 ((acc.1 * (acc.2 : ℚ) + (r : ℚ)) / ((acc.2 : ℚ) + 1)), acc.2 + 1))
          (q, v)).1,
        v + subs.length,
        rvs ++ reviewsSpec subs date⟩ := by
  intro subs
  induction subs with
  | nil =>
      intro q v rvs
      simp [reviewsSpec]
  | cons s rest ih =>
      intro q v rvs
      rw [List.foldl_cons, List.map_cons, List.foldl_cons]
      have hcast : ((v + 1 : ℕ) : ℚ) = (v : ℚ) + 1 := by
        push_cast
        ring
      have hstep : addRatingRec ⟨some q, v, rvs⟩ (some s.1) s.2 date =
          ⟨some (round10 ((q * (v : ℚ) + (s.1 : ℚ)) / ((v : ℚ) + 1))), v + 1,
            if truthyS s.2 then rvs ++ [⟨"anonymous", some s.1, s.2.getD "", date⟩]
            else rvs⟩ := by
        unfold addRatingRec
        dsimp only [jsMul, jsAdd, jsDiv, jsOfInt, round10Js]
        rw [hcast]
      rw [hstep, ih]
      dsimp only
      simp only [RatingRecord.mk.injEq]
      refine ⟨by trivial, by simp only [List.length_cons]; omega, ?_⟩
      cases htr : truthyS s.2 <;>
        simp [reviewsSpec, List.filterMap_cons, htr, List.append_assoc]

/-- The record stored for `name` after a submission sequence, as a fold
of the per-record mutation over the submissions. -/
theorem submitAll_lookup (name date : String) :
    ∀ (subs : List (ℤ × Option String)) (doc : RatingsDoc),
      (lookupA (submitAll doc name subs date).templates name).getD freshRecord =
      subs.foldl (fun r s => addRatingRec r (some s.1) s.2 date)
        ((lookupA doc.templates name).getD freshRecord) := by
  intro subs
  induction subs with
  | nil => intro doc; rfl
  | cons s rest ih =>
      intro doc
      show (lookupA (submitAll (addRating doc name (some s.1) s.2 date) name rest
          date).templates name).getD freshRecord = _
      rw [ih (addRating doc name (some s.1) s.2 date), addRating_lookup]
      rfl

/-- C1 (amended): after `n` submissions with ratings in `[1,5]` starting
from an absent record, `votes = n`, the `reviews` sequence lists the
commented submissions in submission order, and the stored `rating` is the
incrementally rounded running mean `round10((stored·k + r)/(k+1))` applied
per submission — which coincides with `round10` of the arithmetic mean
whenever each intermediate rounding is exact (e.g. 5,3,4 → 4.0), but not
in general, and may depend on submission order. -/
theorem rating_aggregation_incremental (name date : String)
    (subs : List (ℤ × Option String))
    (hrange : ∀ s ∈ subs, 1 ≤ s.1 ∧ s.1 ≤ 5) :
    ((lookupA (submitAll emptyRatingsDoc name subs date).templates name).getD
        freshRecord).votes = subs.length ∧
    ((lookupA (submitAll emptyRatingsDoc name subs date).templates name).getD
        freshRecord).rating = some (runningMeanFold (subs.map Prod.fst)) ∧
    ((lookupA (submitAll emptyRatingsDoc name subs date).templates name).getD
        freshRecord).reviews = reviewsSpec subs date ∧
    lookupA (submitAll emptyRatingsDoc "t" [(5, none), (3, none), (4, none)]
        "D").templates "t" = some ⟨some 4, 3, []⟩ ∧
    (4 : ℚ) = round10 ((5 + 3 + 4) / 3) := by
  rw [submitAll_lookup]
  rw [show (lookupA emptyRatingsDoc.templates name).getD freshRecord =
    (⟨some 0, 0, []⟩ : RatingRecord) from rfl]
  rw [foldRec_spec]
  refine ⟨by simp, rfl, by simp, ?_, by norm_num [round10, jsRound]⟩
  have hl : lookupA (submitAll emptyRatingsDoc "t" [(5, none), (3, none), (4, none)]
      "D").templates "t" =
      some (addRatingRec (addRatingRec (addRatingRec freshRecord (some 5) none "D")
        (some 3) none "D") (some 4) none "D") := by
    unfold submitAll
    rw [List.foldl_cons, List.foldl_cons, List.foldl_cons, List.foldl_nil,
      addRating_lookup, addRating_lookup, addRating_lookup]
    rfl
  rw [hl]
  simp only [addRatingRec, jsMul, jsAdd, jsDiv, jsOfInt, round10Js, freshRecord,
    Option.some.injEq, RatingRecord.mk.injEq]
  norm_num [round10, jsRound, truthyS]

/-- Witness for C1 at the submission sequence 5, 3, 4. -/
theorem rating_aggregation_incremental_witness :
    (∀ s ∈ [((5 : ℤ), (none : Option String)), (3, none), (4, none)],
      1 ≤ s.1 ∧ s.1 ≤ 5) ∧
    ((lookupA (submitAll emptyRatingsDoc "t" [(5, none), (3, none), (4, none)]
        "2024-01-01").templates "t").getD freshRecord).votes = 3 :=
  ⟨by decide,
   (rating_aggregation_incremental "t" "2024-01-01"
      [(5, none), (3, none), (4, none)] (by decide)).1⟩

/-- C1 (counterexample to the claim as stated): submitting 1,1,2,5 stores
rating 2.2, while `round10((1+1+2+5)/4) = 2.3`; the permutation 1,2,5,1
of the same multiset stores 2.3, so the final stored mean also depends on
submission order. -/
theorem rating_mean_claim_counterexample :
    lookupA (submitAll emptyRatingsDoc "t"
        [(1, none), (1, none), (2, none), (5, none)] "").templates "t" =
      some ⟨some (11 / 5), 4, []⟩ ∧
    round10 ((1 + 1 + 2 + 5) / 4) = 23 / 10 ∧
    (11 : ℚ) / 5 ≠ 23 / 10 ∧
    lookupA (submitAll emptyRatingsDoc "t"
        [(1, none), (2, none), (5, none), (1, none)] "").templates "t" =
      some ⟨some (23 / 10), 4, []⟩ := by
  refine ⟨?_, by norm_num [round10, jsRound], by norm_num, ?_⟩ <;>
    · unfold submitAll
      rw [List.foldl_cons, List.foldl_cons, List.foldl_cons, List.foldl_cons,
        List.foldl_nil, addRating_lookup, addRating_lookup, addRating_lookup,
        addRating_lookup]
      simp only [addRatingRec, jsMul, jsAdd, jsDiv, jsOfInt, round10Js, freshRecord,
        Option.some.injEq, RatingRecord.mk.injEq]
      norm_num [round10, jsRound, truthyS, emptyRatingsDoc, lookupA]

/-! ## C8: category-filtered search -/

/-- The claim's fixed seed-keyword mapping, written from the claim's
words. -/
def claimCategorySeeds (category : String) : List String :=
  if category = "frontend" then ["react", "vue", "angular", "svelte"]
  else if category = "backend" then ["express", "fastapi", "django", "node", "python"]
  else if category = "mobile" then ["react-native", "flutter", "mobile", "ios", "android"]
  else if category = "desktop" then ["electron", "tauri", "desktop"]
  else if category = "fullstack" then ["nextjs", "t3", "remix", "nuxt", "fullstack", "ssr"]
  else []

/-- The claim's category test: some tag's lowercase form contains some
seed keyword of the category as a substring. -/
def claimCategoryMatch (t : Template) (category : String) : Bool :=
  (t.tags.getD []).any fun tag =>
    (claimCategorySeeds category).any fun kw => jsIncludes (strToLower tag) kw

/-- The template "react-typescript-vite" of the claim's example store. -/
def reactVite : Template where
  name := some "react-typescript-vite"
  description := some "React + TypeScript + Vite"
  version := some "1.0.0"
  tags := some ["react", "typescript", "vite"]
  author := none
  rules := none
  files := none
  commands := none

/-- The template "vue3-typescript-vite" of the claim's example store. -/
def vueVite : Template where
  name := some "vue3-typescript-vite"
  description := some "Vue 3 + TypeScript + Vite"
  version := some "1.0.0"
  tags := some ["vue", "typescript", "vite"]
  author := none
  rules := none
  files := none
  commands := none

/-- C8: for each of the five named categories, the category filter keeps
exactly the templates passing the claim's lowercase-substring seed test
(both as a store filter and inside `search`, where it commutes with the
query filter), and `search("vite", {category: "frontend"})` over the
example store returns both templates. -/
theorem search_category_filter (templates : List Template) (category : String)
    (hcat : category ∈ ["frontend", "backend", "mobile", "desktop", "fullstack"]) :
    (filterByCategory templates category =
      templates.filter fun t => claimCategoryMatch t category) ∧
    (∀ query, searchCmd templates query (some category) =
      (searchCmd templates query none).filter fun t => claimCategoryMatch t category) ∧
    searchCmd [reactVite, vueVite] "vite" (some "frontend") = [reactVite, vueVite] := by
  have hseeds : categoryMap (strToLower category) = claimCategorySeeds category := by
    fin_cases hcat <;> decide
  have hfc : filterByCategory templates category =
      templates.filter fun t => claimCategoryMatch t category := by
    unfold filterByCategory claimCategoryMatch
    rw [hseeds]
  refine ⟨hfc, fun query => ?_, by decide⟩
  show (filterByCategory templates category).filter
      (fun t => searchMatches t (strToLower query)) =
    (templates.filter fun t => searchMatches t (strToLower query)).filter
      fun t => claimCategoryMatch t category
  rw [hfc, List.filter_filter, List.filter_filter]
  exact List.filter_congr fun t _ => Bool.and_comm _ _

/-- Witness for C8 over the example store and the frontend category. -/
theorem search_category_filter_witness :
    ("frontend" ∈ ["frontend", "backend", "mobile", "desktop", "fullstack"]) ∧
    filterByCategory [reactVite, vueVite] "frontend" =
      ([reactVite, vueVite]).filter fun t => claimCategoryMatch t "frontend" :=
  ⟨by decide, (search_category_filter [reactVite, vueVite] "frontend" (by decide)).1⟩

/-! ## C9: the update command -/

/-- The claim's write-and-backup sequence: for each declared file, a
backup copy when the target already exists, then the overwrite; finally
the marker rewrite with the store version and an `updatedAt` stamp. -/
def writeBackupSequence (cur : Template) (existingPaths : List String)
    (now : String) (md : Marker) : List FsOp :=
  ((cur.files.getD []).flatMap fun f =>
    let p := f.path.getD ""
    (if existingPaths.contains p then [FsOp.copy p (p ++ ".backup." ++ now)] else []) ++
    [FsOp.write p (f.content.getD "")]) ++
  [FsOp.writeMarker { md with version := cur.version, updatedAt := some now }]

/-- `isNewer` never reports a version as newer than itself. -/
theorem isNewer_self (v : Option String) : isNewer v v = false := by
  unfold isNewer
  cases h : parseSemver v
  · simp
  · rename_i a
    unfold semverLt
    simp

/-- C9: with `--check` and a strictly newer store version ("1.1.0" over
marker "1.0.0"), `update` reports an update available and performs zero
filesystem writes; with `--force`, equal versions and a confirmed prompt,
it still performs the full write-and-backup sequence and rewrites the
marker. -/
theorem update_check_no_writes_force_writes :
    (∀ (md : Marker) (templates : List Template) (cur : Template)
       (force confirm : Bool) (existingPaths : List String) (now : String),
      templates.find? (fun t => t.name = some md.template) = some cur →
      cur.version = some "1.1.0" → md.version = some "1.0.0" →
      updateCmd (some md) templates true force confirm existingPaths now =
        ([], .checkReport true)) ∧
    (∀ (md : Marker) (templates : List Template) (cur : Template) (v : Option String)
       (existingPaths : List String) (now : String),
      templates.find? (fun t => t.name = some md.template) = some cur →
      cur.version = v → md.version = v →
      updateCmd (some md) templates false true true existingPaths now =
        (writeBackupSequence cur existingPaths now md, .applied)) := by
  constructor
  · intro md templates cur force confirm existingPaths now hfind hv1 hv2
    unfold updateCmd
    dsimp only
    rw [hfind]
    dsimp only
    rw [if_pos rfl, hv1, hv2]
    have h : isNewer (some "1.1.0") (some "1.0.0") = true := by decide
    rw [h]
  · intro md templates cur v existingPaths now hfind hv1 hv2
    unfold updateCmd
    dsimp only
    rw [hfind]
    dsimp only
    rw [hv1, hv2, isNewer_self]
    rw [if_neg (by simp), if_neg (by simp), if_neg (by simp)]
    unfold writeBackupSequence
    rw [hv1]

/-- The store template for the C9 witness (version 1.1.0, one file). -/
def tUpdNew : Template where
  name := some "demo"
  description := some "demo template"
  version := some "1.1.0"
  tags := some ["react"]
  author := none
  rules := none
  files := some [⟨some ".cursorrules", some "X"⟩]
  commands := none

/-- The same store template at version 1.0.0. -/
def tUpdSame : Template := { tUpdNew with version := some "1.0.0" }

/-- A project marker recording version 1.0.0 of `demo`. -/
def mUpd : Marker := ⟨"demo", some "1.0.0", some "2024-01-01", some "proj", none⟩

/-- Witness for C9: both scenarios at a concrete one-file template whose
target file exists on disk. -/
theorem update_check_no_writes_force_writes_witness :
    ([tUpdNew].find? (fun t => t.name = some mUpd.template) = some tUpdNew ∧
      tUpdNew.version = some "1.1.0" ∧ mUpd.version = some "1.0.0" ∧
      [tUpdSame].find? (fun t => t.name = some mUpd.template) = some tUpdSame ∧
      tUpdSame.version = some "1.0.0") ∧
    updateCmd (some mUpd) [tUpdNew] true false true [".cursorrules"] "99" =
      ([], .checkReport true) ∧
    updateCmd (some mUpd) [tUpdSame] false true true [".cursorrules"] "99" =
      (writeBackupSequence tUpdSame [".cursorrules"] "99" mUpd, .applied) :=
  ⟨⟨by decide, rfl, rfl, by decide, rfl⟩,
   update_check_no_writes_force_writes.1 mUpd [tUpdNew] tUpdNew false true
     [".cursorrules"] "99" (by decide) rfl rfl,
   update_check_no_writes_force_writes.2 mUpd [tUpdSame] tUpdSame (some "1.0.0")
     [".cursorrules"] "99" (by decide) rfl rfl⟩

end CursorTemplates
